import Mathlib

/-!
Verification development for the video annotation pipeline in `app.py`
(classes `VideoProcessor` and `MetadataManager`).

The Python source is shallowly embedded: floats are modelled as `ℚ`,
Python `int(.)` as truncation toward zero, Python `%` on floats (with a
positive divisor) as `a - b * ⌊a / b⌋`, and the fallible external
services (OpenAI vision / transcription / translation / detection, the
assistant backend) as oracle arguments of type `Except`. Image buffers
are not modelled: frames are identified by their index in decode order.
-/

/-- Python `int(q)` on a real number: truncation toward zero. -/
def pyint (q : ℚ) : ℤ := if 0 ≤ q then ⌊q⌋ else ⌈q⌉

/-- Python `a % b` on floats for the divisors used in the source
(3600, 60, 1 — all positive): `a - b * floor (a / b)`. -/
def pymod (a b : ℚ) : ℚ := a - b * ⌊a / b⌋

/-- Python `f"{n:02d}"`: decimal rendering zero-padded to width 2. -/
def pad2 (n : ℤ) : String :=
  let s := toString n
  if s.length < 2 then "0" ++ s else s

/-- Python `s[-k:]`: the last `k` characters of `s` (all of `s` when it
is shorter than `k`). -/
def strSliceLast (k : ℕ) (s : String) : String :=
  (s.toList.drop (s.toList.length - k)).asString

/-- Structured output schema of the vision call (`class FrameAnalysis`). -/
structure FrameAnalysis where
  description : String
  objects_detected : List String
  scene_type : String
deriving DecidableEq, Repr

/-- Failure modes of the vision call caught in `analyze_frame`: the
token-limit error (`LengthFinishReasonError`) versus any other
exception, carrying the exception message. -/
inductive VisionError where
  | lengthLimit : VisionError
  | other : String → VisionError
deriving DecidableEq, Repr

/-- One segment of the verbose transcription result
(`transcript.segments[i]`, fields `start`, `end`, `text`). -/
structure TranscriptSegment where
  start : ℚ
  stop : ℚ
  text : String
deriving DecidableEq, Repr

/-- One subtitle entry as built in `extract_audio_with_translations`:
`{"inpoint": str(segment.start), "outpoint": str(segment.end), "text": ...}`.
The Python `str(.)` of the float endpoints is modelled by `toString` on `ℚ`. -/
structure SubtitleEntry where
  inpoint : String
  outpoint : String
  text : String
deriving DecidableEq, Repr

/-- The dictionary returned by `extract_audio_with_translations`: either
a mapping language code → subtitle track (an insertion-ordered dict,
modelled as an association list) or the failure marker `{"error": str(e)}`. -/
inductive AudioResult where
  | tracks : List (String × List SubtitleEntry) → AudioResult
  | errorMarker : String → AudioResult
deriving DecidableEq, Repr

/-- Python `dict.keys()` of the subtitles dictionary, in insertion order.
The failure marker `{"error": msg}` has the single key `"error"`. -/
def AudioResult.keys : AudioResult → List String
  | .tracks m => m.map Prod.fst
  | .errorMarker _ => ["error"]

/-- Number of language tracks held by the subtitles dictionary: the
failure marker carries none. -/
def AudioResult.numTracks : AudioResult → ℕ
  | .tracks m => m.length
  | .errorMarker _ => 0

/-- Whether the subtitles dictionary is the failure marker, i.e. a
record with an `error` field. -/
def AudioResult.hasErrorField : AudioResult → Bool
  | .tracks _ => false
  | .errorMarker _ => true

/-- `VideoProcessor.supported_languages`: code → display name, in the
source's insertion order. -/
def supported_languages : List (String × String) :=
  [("en-US", "English"), ("ar-AR", "Arabic"), ("zh-CN", "Mandarin"),
   ("ta-IN", "Tamil"), ("ms-MY", "Malay")]

/-- `VideoProcessor.translate_text`: returns the translation produced by
the chat service; any exception is caught and the original text is
returned unchanged. The remote call is the oracle `svc`. -/
def translate_text (svc : Except String String) (text : String) : String :=
  match svc with
  | .ok translated => translated
  | .error _ => text

/-- `VideoProcessor.detect_language`: returns the language code produced
by the chat service; any exception is caught and `"en-US"` is returned. -/
def detect_language (svc : Except String String) : String :=
  match svc with
  | .ok code => code
  | .error _ => "en-US"

/-- `VideoProcessor.analyze_frame`: on success the parsed structured
response is returned (the source serializes it to a JSON string and
`create_metadata_df` parses it back; the round trip is modelled as
passing the record through). On `LengthFinishReasonError` or any other
exception a sentinel with `scene_type = "error"` and no detected objects
is returned. The remote vision call is the oracle `svc`. -/
def analyze_frame (svc : Except VisionError FrameAnalysis) : FrameAnalysis :=
  match svc with
  | .ok parsed => parsed
  | .error .lengthLimit =>
      { description := "Error: Response exceeded token limit"
        objects_detected := []
        scene_type := "error" }
  | .error (.other e) =>
      { description := "Error analyzing frame: " ++ e
        objects_detected := []
        scene_type := "error" }

/-- The frame-analysis loop of `main`: each sampled frame's vision
result is converted by `analyze_frame`, one entry per frame, in order. -/
def analyzeAllFrames (results : List (Except VisionError FrameAnalysis)) :
    List FrameAnalysis :=
  results.map analyze_frame

/-- The `video_metadata` dictionary assembled in `extract_frames`. -/
structure VideoMeta where
  fps : ℚ
  duration : ℚ
  total_frames : ℕ
  frame_interval : ℤ
deriving DecidableEq, Repr

/-- The decode loop of `extract_frames` over the remaining undecoded
frames, starting at index `cur`. Evaluating `current_frame % frame_interval`
with `frame_interval = 0` raises `ZeroDivisionError` in Python, modelled
as an `Except.error`. A kept frame records its index and its timestamp
`current_frame / fps` (with `fps` already past the fallback). -/
def extract_loop (frame_interval : ℤ) (fps : ℚ) :
    (remaining cur : ℕ) → Except String (List ℕ × List ℚ)
  | 0, _ => .ok ([], [])
  | remaining + 1, cur =>
      if frame_interval = 0 then .error "ZeroDivisionError"
      else
        (extract_loop frame_interval fps remaining (cur + 1)).map fun r =>
          if (cur : ℤ) % frame_interval = 0 then
            (cur :: r.1, ((cur : ℚ) / fps) :: r.2)
          else r

/-- `VideoProcessor.extract_frames`. The video stream is modelled by its
reported `fps` and the number `total_frames` of frames that decode
successfully. Returns the kept frame indices, their timestamps and the
`video_metadata` dictionary. Note the order of operations in the source:
`frame_interval = int(fps * sample_rate)` is computed from the reported
fps BEFORE the `fps <= 0` fallback to 30, which therefore only affects
the timestamp computation. -/
def extract_frames (fps : ℚ) (total_frames : ℕ) (sample_rate : ℚ) :
    Except String (List ℕ × List ℚ × VideoMeta) :=
  let frame_interval := pyint (fps * sample_rate)
  let duration := if fps > 0 then (total_frames : ℚ) / fps else 0
  let meta : VideoMeta :=
    { fps := fps, duration := duration, total_frames := total_frames
      frame_interval := frame_interval }
  let fpsEff := if fps ≤ 0 then 30 else fps
  match extract_loop frame_interval fpsEff total_frames 0 with
  | .error e => .error e
  | .ok (nums, ts) => .ok (nums, ts, meta)

/-- `VideoProcessor.extract_audio_with_translations`. Audio extraction
and transcription are the oracle `transcriptSvc` (their failure is the
caught exception branch returning `{"error": str(e)}`); language
detection is the oracle `detectSvc`; per-segment translation calls are
the oracle `trSvc`, indexed by segment text and target language name.
On success the source-language track is inserted first, then one
translated track per supported language other than the source, in
`supported_languages` order. -/
def extract_audio_with_translations
    (transcriptSvc : Except String (List TranscriptSegment))
    (detectSvc : Except String String)
    (trSvc : String → String → Except String String) : AudioResult :=
  match transcriptSvc with
  | .error e => .errorMarker e
  | .ok segments =>
      let source_language := detect_language detectSvc
      let sourceTrack : List SubtitleEntry :=
        segments.map fun s =>
          { inpoint := toString s.start, outpoint := toString s.stop, text := s.text }
      let translated : List (String × List SubtitleEntry) :=
        (supported_languages.filter fun p => p.1 ≠ source_language).map fun p =>
          (p.1, segments.map fun s =>
            { inpoint := toString s.start, outpoint := toString s.stop
              text := translate_text (trSvc s.text p.2) s.text })
      .tracks ((source_language, sourceTrack) :: translated)

/-- `VideoProcessor.query_assistant`: with no assistant created, the
usage-error message is returned immediately; otherwise the interaction
with the assistant backend (thread creation, polling, message
retrieval, its own error handling) is the oracle `backend`. -/
def query_assistant (assistant : Option String) (backend : String → String)
    (query : String) : String :=
  match assistant with
  | none => "No assistant available. Please process a video first."
  | some _ => backend query

/-- One timeline marker in `tracks.caption.eventData`, as assembled in
`MetadataManager.create_metadata_df`: `eventID` is the frame description
and `inpoint`/`outpoint` are both the frame's timestamp. -/
structure EventRecord where
  eventID : String
  eventImageURL : String
  inpoint : ℚ
  outpoint : ℚ
deriving DecidableEq, Repr

/-- The `{"caption": {"eventData": [...]}}` value of the `tracks` field. -/
structure CaptionTrack where
  eventData : List EventRecord
deriving DecidableEq, Repr

/-- The `source` dictionary of the structured metadata
(`MetadataManager.create_metadata_df`, `source_data`). -/
structure SourceData where
  description : String
  title : Option String
  file_id : ℤ
  lls_kv_id : ℤ
  thumbnail : String
  clip_name : String
  clip_title : String
  duration : String
  proxy_uri : String
  relative_path : String
  tracks : CaptionTrack
  subtitles : AudioResult
deriving DecidableEq, Repr

/-- The complete structured metadata envelope
(`MetadataManager.create_metadata_df`, `self.structured_data`). -/
structure StructuredData where
  index : String
  id : String
  version : ℤ
  seq_no : ℤ
  primary_term : ℤ
  found : Bool
  source : SourceData
deriving DecidableEq, Repr

/-- `MetadataManager.format_duration`: renders seconds as
`HH:MM:SS:FF` with `hours = int(seconds // 3600)`,
`minutes = int((seconds % 3600) // 60)`, `secs = int(seconds % 60)` and
`frames = int((seconds % 1) * 24)` (a fixed 24 fps sub-second
quantization). Python float `//` is `floor` of the quotient and the
result of `%` by a positive divisor is already nonnegative, so the
outer `int(.)` is `pyint`. -/
def format_duration (seconds : ℚ) : String :=
  let hours := pyint ⌊seconds / 3600⌋
  let minutes := pyint ⌊pymod seconds 3600 / 60⌋
  let secs := pyint (pymod seconds 60)
  let frames := pyint (pymod seconds 1 * 24)
  pad2 hours ++ ":" ++ pad2 minutes ++ ":" ++ pad2 secs ++ ":" ++ pad2 frames

/-- The `event_data` loop of `create_metadata_df`: one event per row of
the frame DataFrame (the rows pair each parsed frame analysis with its
timestamp), with `eventID` the frame description and
`inpoint = outpoint = timestamp`. -/
def event_data (frame_metadata : List FrameAnalysis) (timestamps : List ℚ) :
    List EventRecord :=
  List.zipWith
    (fun m t =>
      { eventID := m.description, eventImageURL := "", inpoint := t, outpoint := t })
    frame_metadata timestamps

/-- `MetadataManager.create_metadata_df`, producing `self.structured_data`.
`frame_metadata` is the list of per-frame analyses (the source passes
them as JSON strings and parses them back with `json.loads`; that round
trip is modelled as passing the records through). The wall-clock reads
`int(time.time())` are the parameter `now` and the two generated UUIDs
are `uuidRecord` and `uuidThumb`. `int(str(now)[-8:])` equals
`now % 10^8` for the nonnegative `now` that `time.time()` yields, and
`str(now)[-2:]` is the last-two-character slice. The subtitles field
stores `audio_data` as is: both the language map and the `{"error": ...}`
marker are dicts, so the `isinstance(audio_data, dict)` guard keeps
them unchanged. `video_metadata` carries no `description` key, so
`video_metadata.get('description', '')` is the empty string. -/
def create_metadata_df (frame_metadata : List FrameAnalysis)
    (timestamps : List ℚ) (audio_data : AudioResult)
    (video_metadata : VideoMeta) (now : ℤ) (uuidRecord uuidThumb : String) :
    StructuredData :=
  { index := toString now
    id := uuidRecord
    version := 1
    seq_no := now
    primary_term := 1
    found := true
    source :=
      { description := ""
        title := none
        file_id := now
        lls_kv_id := now % 100000000
        thumbnail := strSliceLast 8 uuidThumb ++ ".png"
        clip_name := "FIN-" ++ strSliceLast 2 (toString now)
        clip_title := toString now
        duration := format_duration video_metadata.duration
        proxy_uri := ""
        relative_path := "//"
        tracks := { eventData := event_data frame_metadata timestamps }
        subtitles := audio_data } }

/-- `MetadataManager.query_metadata`: with no metadata DataFrame the
usage-error message is returned immediately; otherwise the structured
chat completion over the metadata context is the oracle `backend`. The
`df` argument stands for `self.metadata_df` (`none` before any video
has been processed). -/
def query_metadata (df : Option (List FrameAnalysis × List ℚ))
    (backend : String → String) (query : String) : String :=
  match df with
  | none => "No metadata available. Please process a video first."
  | some _ => backend query

/-- A JSON document, the shape of what `json.dumps` in
`MetadataManager.export_metadata` serializes and `json.loads`
re-parses. Python ints and floats are kept apart, as `json` does;
object member order is dict insertion order, which `json.dumps`
preserves and `json.loads` restores. -/
inductive Json where
  | null : Json
  | bool : Bool → Json
  | int : ℤ → Json
  | num : ℚ → Json
  | str : String → Json
  | arr : List Json → Json
  | obj : List (String × Json) → Json

/-- Decode every element of a JSON array, failing if any element
fails — the array part of `json.loads`. -/
def optionMapList {alpha beta : Type} (g : alpha → Option beta) :
    List alpha → Option (List beta)
  | [] => some []
  | x :: xs =>
      match g x, optionMapList g xs with
      | some y, some ys => some (y :: ys)
      | _, _ => none

/-- The JSON document of one timeline event, as it appears under
`tracks.caption.eventData` in the exported metadata. -/
def EventRecord.toJson (e : EventRecord) : Json :=
  .obj [("eventID", .str e.eventID), ("eventImageURL", .str e.eventImageURL),
        ("inpoint", .num e.inpoint), ("outpoint", .num e.outpoint)]

/-- The JSON document of one subtitle entry. -/
def SubtitleEntry.toJson (e : SubtitleEntry) : Json :=
  .obj [("inpoint", .str e.inpoint), ("outpoint", .str e.outpoint),
        ("text", .str e.text)]

/-- The JSON document of the subtitles dictionary: one member per
language track, or the single-member `{"error": msg}` failure marker. -/
def AudioResult.toJson : AudioResult → Json
  | .tracks m => .obj (m.map fun p => (p.1, .arr (p.2.map SubtitleEntry.toJson)))
  | .errorMarker e => .obj [("error", .str e)]

/-- The JSON document of the `source` dictionary in the exported
metadata. -/
def SourceData.toJson (s : SourceData) : Json :=
  .obj [("description", .str s.description),
        ("title", match s.title with | none => .null | some t => .str t),
        ("file_id", .int s.file_id),
        ("lls_kv_id", .int s.lls_kv_id),
        ("thumbnail", .str s.thumbnail),
        ("clip_name", .str s.clip_name),
        ("clip_title", .str s.clip_title),
        ("duration", .str s.duration),
        ("proxy_uri", .str s.proxy_uri),
        ("relative_path", .str s.relative_path),
        ("tracks", .obj [("caption", .obj
           [("eventData", .arr (s.tracks.eventData.map EventRecord.toJson))])]),
        ("subtitles", s.subtitles.toJson)]

/-- The JSON document that `export_metadata(format_type="json")`
serializes: `json.dumps(self.structured_data, ensure_ascii=False, indent=2)`
emits exactly this structure (byte-level printing and re-parsing of the
document are Python's `json` library, an external collaborator). -/
def StructuredData.toJson (d : StructuredData) : Json :=
  .obj [("index", .str d.index), ("id", .str d.id), ("version", .int d.version),
        ("seq_no", .int d.seq_no), ("primary_term", .int d.primary_term),
        ("found", .bool d.found), ("source", d.source.toJson)]

/-- Re-parse one timeline event from its JSON document. -/
def EventRecord.fromJson : Json → Option EventRecord
  | .obj [("eventID", .str i), ("eventImageURL", .str u),
          ("inpoint", .num a), ("outpoint", .num b)] =>
      some { eventID := i, eventImageURL := u, inpoint := a, outpoint := b }
  | _ => none

/-- Re-parse one subtitle entry from its JSON document. -/
def SubtitleEntry.fromJson : Json → Option SubtitleEntry
  | .obj [("inpoint", .str a), ("outpoint", .str b), ("text", .str t)] =>
      some { inpoint := a, outpoint := b, text := t }
  | _ => none

/-- Re-parse one language track (one member of the subtitles object). -/
def trackFromJson (p : String × Json) : Option (String × List SubtitleEntry) :=
  match p.2 with
  | .arr es => (optionMapList SubtitleEntry.fromJson es).map fun track => (p.1, track)
  | _ => none

/-- Re-parse the subtitles dictionary from its JSON document: a
single-member object whose value is a string must be the failure
marker `{"error": msg}`; anything else is read as language tracks. -/
def AudioResult.fromJson : Json → Option AudioResult
  | .obj m =>
      match m with
      | [(k, .str e)] => if k = "error" then some (.errorMarker e) else none
      | kvs => (optionMapList trackFromJson kvs).map .tracks
  | _ => none

/-- Re-parse the `source` dictionary from its JSON document. -/
def SourceData.fromJson : Json → Option SourceData
  | .obj [("description", .str de), ("title", ti), ("file_id", .int fi),
          ("lls_kv_id", .int lk), ("thumbnail", .str th), ("clip_name", .str cn),
          ("clip_title", .str ct), ("duration", .str du), ("proxy_uri", .str pu),
          ("relative_path", .str rp),
          ("tracks", .obj [("caption", .obj [("eventData", .arr evs)])]),
          ("subtitles", subs)] =>
      (match ti with
        | .null => some none
        | .str t => some (some t)
        | _ => none).bind fun title =>
      (optionMapList EventRecord.fromJson evs).bind fun eventData =>
      (AudioResult.fromJson subs).bind fun subtitles =>
      some { description := de, title := title, file_id := fi, lls_kv_id := lk,
             thumbnail := th, clip_name := cn, clip_title := ct, duration := du,
             proxy_uri := pu, relative_path := rp, tracks := { eventData := eventData },
             subtitles := subtitles }
  | _ => none

/-- Re-parse the whole exported metadata document. -/
def StructuredData.fromJson : Json → Option StructuredData
  | .obj [("index", .str ix), ("id", .str i), ("version", .int v),
          ("seq_no", .int sq), ("primary_term", .int pt), ("found", .bool f),
          ("source", src)] =>
      (SourceData.fromJson src).map fun s =>
        { index := ix, id := i, version := v, seq_no := sq, primary_term := pt,
          found := f, source := s }
  | _ => none

/-- The sentinel produced by a failed vision call has scene type
`"error"` and no detected objects. -/
theorem analyze_frame_error (e : VisionError) :
    (analyze_frame (.error e)).scene_type = "error" ∧
    (analyze_frame (.error e)).objects_detected = [] := by
  cases e <;> exact ⟨rfl, rfl⟩

/-- C2: any failure of the vision-analysis call (token-limit error or
any other exception) yields a sentinel FrameAnalysis with
`scene_type = "error"` and an empty `objects_detected` list; the
analysis loop still produces one entry per frame, and every other
frame's result is untouched by the failure. -/
theorem claim_C2_vision_failure_sentinel
    (results : List (Except VisionError FrameAnalysis)) (i : ℕ)
    (e : VisionError) (he : results[i]? = some (.error e)) :
    (analyzeAllFrames results).length = results.length ∧
    (∃ fa, (analyzeAllFrames results)[i]? = some fa ∧
      fa.scene_type = "error" ∧ fa.objects_detected = []) ∧
    (∀ (j : ℕ) (fa : FrameAnalysis), results[j]? = some (Except.ok fa) → (analyzeAllFrames results)[j]? = some fa) := by
  refine ⟨by simp [analyzeAllFrames], ?_, ?_⟩
  · refine ⟨analyze_frame (.error e), ?_, analyze_frame_error e⟩
    simp [analyzeAllFrames, List.getElem?_map, he]
  · intro j fa hj
    simp [analyzeAllFrames, List.getElem?_map, hj, analyze_frame]

/-- Witness for C2 at a concrete run: five frames, the third failing
with a service error, the others succeeding; the sentinel appears at
index 2 and all other analyses come through unchanged. -/
theorem claim_C2_witness :
    ([Except.ok ⟨"a", ["x"], "indoor"⟩, Except.ok ⟨"b", [], "outdoor"⟩,
      Except.error (VisionError.other "timeout"), Except.ok ⟨"d", [], "indoor"⟩,
      Except.ok ⟨"e", [], "road"⟩] :
        List (Except VisionError FrameAnalysis))[2]? =
      some (.error (VisionError.other "timeout")) ∧
    ((analyzeAllFrames [Except.ok ⟨"a", ["x"], "indoor"⟩, Except.ok ⟨"b", [], "outdoor"⟩,
        Except.error (VisionError.other "timeout"), Except.ok ⟨"d", [], "indoor"⟩,
        Except.ok ⟨"e", [], "road"⟩]).length = 5 ∧
      (∃ fa, (analyzeAllFrames [Except.ok ⟨"a", ["x"], "indoor"⟩,
          Except.ok ⟨"b", [], "outdoor"⟩, Except.error (VisionError.other "timeout"),
          Except.ok ⟨"d", [], "indoor"⟩, Except.ok ⟨"e", [], "road"⟩])[2]? = some fa ∧
        fa.scene_type = "error" ∧ fa.objects_detected = []) ∧
      (∀ (j : ℕ) (fa : FrameAnalysis), ([Except.ok ⟨"a", ["x"], "indoor"⟩, Except.ok ⟨"b", [], "outdoor"⟩,
          Except.error (VisionError.other "timeout"), Except.ok ⟨"d", [], "indoor"⟩,
          Except.ok ⟨"e", [], "road"⟩] :
            List (Except VisionError FrameAnalysis))[j]? = some (Except.ok fa) →
        (analyzeAllFrames [Except.ok ⟨"a", ["x"], "indoor"⟩, Except.ok ⟨"b", [], "outdoor"⟩,
          Except.error (VisionError.other "timeout"), Except.ok ⟨"d", [], "indoor"⟩,
          Except.ok ⟨"e", [], "road"⟩])[j]? = some fa)) :=
  ⟨rfl, claim_C2_vision_failure_sentinel _ 2 (VisionError.other "timeout") rfl⟩

/-- C8: querying before any context has been created fails with an
explicit usage-error message — for both the assistant query path
(`query_assistant` with no assistant) and the metadata query path
(`query_metadata` with no metadata DataFrame). Neither path crashes and
neither returns a silent empty answer: both return a fixed non-empty
"no context" message and never consult the backend. -/
theorem claim_C8_query_without_context
    (backendA backendM : String → String) (query : String) :
    query_assistant none backendA query =
      "No assistant available. Please process a video first." ∧
    query_metadata none backendM query =
      "No metadata available. Please process a video first." ∧
    query_assistant none backendA query ≠ "" ∧
    query_metadata none backendM query ≠ "" := by
  refine ⟨rfl, rfl, ?_, ?_⟩ <;> simp [query_assistant, query_metadata]

/-- C3: if audio extraction or transcription fails, the subtitle
mapping degenerates to the `{"error": str(e)}` failure marker instead
of raising; aggregation still completes on it, the resulting record
carries zero subtitle tracks, and the visual track (the timeline
events) is exactly what it would have been with any successful audio
result. -/
theorem claim_C3_audio_failure_contained
    (e : String) (detectSvc : Except String String)
    (trSvc : String → String → Except String String)
    (frame_metadata : List FrameAnalysis) (timestamps : List ℚ)
    (okAudio : AudioResult) (video_metadata : VideoMeta) (now : ℤ)
    (uuidRecord uuidThumb : String) :
    extract_audio_with_translations (.error e) detectSvc trSvc = .errorMarker e ∧
    ((create_metadata_df frame_metadata timestamps
        (extract_audio_with_translations (.error e) detectSvc trSvc)
        video_metadata now uuidRecord uuidThumb).source.subtitles.hasErrorField = true ∧
      (create_metadata_df frame_metadata timestamps
        (extract_audio_with_translations (.error e) detectSvc trSvc)
        video_metadata now uuidRecord uuidThumb).source.subtitles.numTracks = 0) ∧
    (create_metadata_df frame_metadata timestamps
        (extract_audio_with_translations (.error e) detectSvc trSvc)
        video_metadata now uuidRecord uuidThumb).source.tracks.eventData =
      (create_metadata_df frame_metadata timestamps okAudio
        video_metadata now uuidRecord uuidThumb).source.tracks.eventData := by
  exact ⟨rfl, ⟨rfl, rfl⟩, rfl⟩

/-- The frame indices in `[c, c + k)` whose index is divisible by the
interval `I` — the decimation rule of `extract_frames`. -/
def keptIndices (I : ℤ) (k c : ℕ) : List ℕ :=
  (List.range' c k).filter fun i => decide ((i : ℤ) % I = 0)

/-- With a nonzero frame interval the decode loop never raises and
keeps exactly the frame indices divisible by the interval, stamping
each kept frame with `index / fps`. -/
theorem extract_loop_ok (I : ℤ) (hI : I ≠ 0) (f : ℚ) :
    ∀ (k c : ℕ), extract_loop I f k c =
      .ok (keptIndices I k c, (keptIndices I k c).map fun i : ℕ => (i : ℚ) / f) := by
  intro k
  induction k with
  | zero => intro c; rfl
  | succ m ih =>
      intro c
      rw [extract_loop, if_neg hI, ih (c + 1)]
      rw [show ∀ x : List ℕ × List ℚ,
            (Except.ok x : Except String (List ℕ × List ℚ)).map
                (fun r => if (c : ℤ) % I = 0 then
                  (c :: r.1, ((c : ℚ) / f) :: r.2) else r) =
              .ok (if (c : ℤ) % I = 0 then (c :: x.1, ((c : ℚ) / f) :: x.2) else x)
          from fun _ => rfl]
      rw [keptIndices, keptIndices, List.range'_succ, List.filter_cons]
      by_cases hc : (c : ℤ) % I = 0
      · rw [if_pos hc, if_pos (by simpa using hc), List.map_cons]
      · rw [if_neg hc, if_neg (by simpa using hc)]

/-- The claim-side decimation interval, following the spec wording
`frameInterval = round(fps * intervalSeconds)`: rounding to the nearest
integer (the tie-breaking convention is irrelevant at the inputs where
it is used below). -/
def roundNearest (q : ℚ) : ℤ := ⌊q + 1 / 2⌋

/-- C1 as stated is false: the source computes the decimation interval
with Python `int(.)` (truncation), not `round(.)`. At fps = 13/5 and a
1-second sampling interval the code's interval is `int(2.6) = 2` and it
keeps frames 0 and 2, while the claimed rule with `round(2.6) = 3`
would keep frames 0 and 3 of the first four frames. -/
theorem claim_C1_counterexample :
    roundNearest ((13 / 5 : ℚ) * 1) = 3 ∧
    (extract_frames (13 / 5) 4 1).map (fun r => r.1) = .ok [0, 2] ∧
    ([0, 2] : List ℕ) ≠ keptIndices (roundNearest ((13 / 5 : ℚ) * 1)) 4 0 := by
  have hround : roundNearest ((13 / 5 : ℚ) * 1) = 3 := by
    rw [roundNearest]
    norm_num [Int.floor_eq_iff]
  have hpy : pyint ((13 / 5 : ℚ) * 1) = 2 := by
    rw [pyint, if_pos (by norm_num)]
    norm_num [Int.floor_eq_iff]
  refine ⟨hround, ?_, ?_⟩
  · rw [extract_frames]
    simp only [hpy]
    rw [extract_loop_ok 2 (by decide) _ 4 0]
    simp [keptIndices, List.range', Except.map]
  · rw [hround]
    decide

/-- C1, amended: for every stream and sampling interval whose computed
interval `int(fps * sample_rate)` (Python truncation, not rounding) is
at least 1, `extract_frames` succeeds, keeps exactly the frames whose
index is divisible by that interval, stamps each kept frame with
`index / fps` (after the fps fallback), and reports the interval in the
video metadata. -/
theorem claim_C1_decimation_rule (fps sample_rate : ℚ) (n : ℕ)
    (hI : 1 ≤ pyint (fps * sample_rate)) :
    extract_frames fps n sample_rate =
      .ok (keptIndices (pyint (fps * sample_rate)) n 0,
        (keptIndices (pyint (fps * sample_rate)) n 0).map
          (fun i : ℕ => (i : ℚ) / (if fps ≤ 0 then 30 else fps)),
        { fps := fps
          duration := if fps > 0 then (n : ℚ) / fps else 0
          total_frames := n
          frame_interval := pyint (fps * sample_rate) }) := by
  rw [extract_frames]
  rw [extract_loop_ok (pyint (fps * sample_rate)) (by omega) _ n 0]

/-- Witness for the amended C1 at fps = 30 and a 2-second sampling
interval over 7 decoded frames. -/
theorem claim_C1_decimation_rule_witness :
    1 ≤ pyint ((30 : ℚ) * 2) ∧
    extract_frames 30 7 2 =
      .ok (keptIndices (pyint ((30 : ℚ) * 2)) 7 0,
        (keptIndices (pyint ((30 : ℚ) * 2)) 7 0).map
          (fun i : ℕ => (i : ℚ) / (if (30 : ℚ) ≤ 0 then 30 else 30)),
        { fps := 30
          duration := if (30 : ℚ) > 0 then (7 : ℚ) / 30 else 0
          total_frames := 7
          frame_interval := pyint ((30 : ℚ) * 2) }) := by
  have h : 1 ≤ pyint ((30 : ℚ) * 2) := by
    rw [pyint, if_pos (by norm_num)]
    norm_num [Int.le_floor]
  exact ⟨h, claim_C1_decimation_rule 30 2 7 h⟩

/-- C10: when the reported fps and sampling rate make
`fps * sample_rate` lie in [0, 1) — in particular when the stream
reports fps = 0 — the source computes `frame_interval = int(fps *
sample_rate) = 0` before the fps fallback of 30 is applied, so the
kept-frame test `current_frame % frame_interval` divides by zero and
frame extraction fails on the first decoded frame instead of sampling
at the fallback rate. -/
theorem claim_C10_zero_interval_division (fps sample_rate : ℚ) (n : ℕ)
    (h0 : 0 ≤ fps * sample_rate) (h1 : fps * sample_rate < 1) (hn : 1 ≤ n) :
    pyint (fps * sample_rate) = 0 ∧
    extract_frames fps n sample_rate = .error "ZeroDivisionError" := by
  have hpy : pyint (fps * sample_rate) = 0 := by
    rw [pyint, if_pos h0]
    exact Int.floor_eq_zero_iff.mpr ⟨h0, h1⟩
  refine ⟨hpy, ?_⟩
  obtain ⟨m, rfl⟩ : ∃ m, n = m + 1 := ⟨n - 1, by omega⟩
  rw [extract_frames]
  simp only [hpy]
  rw [extract_loop]
  simp

/-- Witness for C10: a stream reporting fps = 0 with the pipeline's
sample rate of 2 and five decodable frames. -/
theorem claim_C10_witness :
    (0 : ℚ) ≤ 0 * 2 ∧ (0 : ℚ) * 2 < 1 ∧ (1 : ℕ) ≤ 5 ∧
    (pyint ((0 : ℚ) * 2) = 0 ∧
      extract_frames 0 5 2 = .error "ZeroDivisionError") :=
  ⟨by norm_num, by norm_num, by decide,
    claim_C10_zero_interval_division 0 2 5 (by norm_num) (by norm_num) (by decide)⟩

/-- Zipping two equally long lists and keeping the right component
returns the right list. -/
theorem zipWith_right {α β : Type} :
    ∀ (l : List α) (l' : List β), l.length = l'.length →
      List.zipWith (fun _ b => b) l l' = l'
  | [], [], _ => rfl
  | _ :: xs, _ :: ys, h =>
      congrArg _ (zipWith_right xs ys (by simpa using h))
  | [], _ :: _, h => by simp at h
  | _ :: _, [], h => by simp at h

/-- C7: for a record built from frames sampled in increasing time
order, the `events` sequence under `tracks.caption.eventData` is sorted
non-decreasing by `inpoint`, and the events' inpoints and outpoints are
exactly the frames' timestamps, in order. -/
theorem claim_C7_events_sorted (fm : List FrameAnalysis) (ts : List ℚ)
    (audio : AudioResult) (meta : VideoMeta) (now : ℤ) (u1 u2 : String)
    (hsorted : ts.Pairwise (· ≤ ·)) (hlen : fm.length = ts.length) :
    (create_metadata_df fm ts audio meta now u1 u2).source.tracks.eventData =
      event_data fm ts ∧
    (event_data fm ts).Pairwise (fun a b => a.inpoint ≤ b.inpoint) ∧
    (event_data fm ts).map EventRecord.inpoint = ts ∧
    (event_data fm ts).map EventRecord.outpoint = ts := by
  have hin : (event_data fm ts).map EventRecord.inpoint = ts := by
    rw [event_data, List.map_zipWith]
    exact zipWith_right fm ts hlen
  have hout : (event_data fm ts).map EventRecord.outpoint = ts := by
    rw [event_data, List.map_zipWith]
    exact zipWith_right fm ts hlen
  refine ⟨rfl, ?_, hin, hout⟩
  have := hin ▸ hsorted
  exact (List.pairwise_map.mp this)

/-- Witness for C7: two frames at timestamps 0 and 2 seconds. -/
theorem claim_C7_witness :
    ([(0 : ℚ), 2].Pairwise (· ≤ ·) ∧
      ([⟨"a", [], "indoor"⟩, ⟨"b", [], "outdoor"⟩] :
          List FrameAnalysis).length = [(0 : ℚ), 2].length) ∧
    ((create_metadata_df [⟨"a", [], "indoor"⟩, ⟨"b", [], "outdoor"⟩] [(0 : ℚ), 2]
        (.errorMarker "no audio") ⟨30, 10, 300, 30⟩ 0 "rec" "th").source.tracks.eventData =
      event_data [⟨"a", [], "indoor"⟩, ⟨"b", [], "outdoor"⟩] [(0 : ℚ), 2] ∧
    (event_data [⟨"a", [], "indoor"⟩, ⟨"b", [], "outdoor"⟩] [(0 : ℚ), 2]).Pairwise
      (fun a b => a.inpoint ≤ b.inpoint) ∧
    (event_data [⟨"a", [], "indoor"⟩, ⟨"b", [], "outdoor"⟩] [(0 : ℚ), 2]).map
      EventRecord.inpoint = [(0 : ℚ), 2] ∧
    (event_data [⟨"a", [], "indoor"⟩, ⟨"b", [], "outdoor"⟩] [(0 : ℚ), 2]).map
      EventRecord.outpoint = [(0 : ℚ), 2]) :=
  have h1 : [(0 : ℚ), 2].Pairwise (· ≤ ·) := by norm_num [List.pairwise_cons]
  have h2 : ([⟨"a", [], "indoor"⟩, ⟨"b", [], "outdoor"⟩] :
      List FrameAnalysis).length = [(0 : ℚ), 2].length := rfl
  ⟨⟨h1, h2⟩, claim_C7_events_sorted _ _ _ _ _ _ _ h1 h2⟩

/-- On a successful transcription, the subtitle dictionary's keys are
the detected source language followed by the supported codes other than
the source, in configuration order. -/
theorem audio_result_keys (segs : List TranscriptSegment)
    (detectSvc : Except String String)
    (trSvc : String → String → Except String String) :
    (extract_audio_with_translations (.ok segs) detectSvc trSvc).keys =
      detect_language detectSvc ::
        (supported_languages.filter fun p =>
          decide (p.1 ≠ detect_language detectSvc)).map Prod.fst := by
  simp only [extract_audio_with_translations, AudioResult.keys, List.map_cons,
    List.map_map]
  rfl

/-- C4 as stated is false: when audio extraction or transcription
fails, aggregation stores the `{"error": str(e)}` marker as the
`subtitles` mapping, whose key `"error"` is neither a supported
language code nor the detected source language. -/
theorem claim_C4_counterexample :
    (create_metadata_df [] []
        (extract_audio_with_translations (.error "ffmpeg crashed") (.ok "fr-FR")
          fun _ _ => .ok "t")
        ⟨30, 10, 300, 30⟩ 0 "rec-id" "thumb").source.subtitles.keys = ["error"] ∧
    detect_language (.ok "fr-FR") = "fr-FR" ∧
    "error" ∉ ("fr-FR" :: supported_languages.map Prod.fst) :=
  ⟨rfl, rfl, by decide⟩

/-- C4, amended: in every AnnotationRecord aggregated from a successful
audio annotation, the keys of the `subtitles` mapping are a subset of
the configured supported-language set plus the detected source
language code. -/
theorem claim_C4_subtitle_keys (segs : List TranscriptSegment)
    (detectSvc : Except String String)
    (trSvc : String → String → Except String String)
    (fm : List FrameAnalysis) (ts : List ℚ) (meta : VideoMeta) (now : ℤ)
    (u1 u2 : String) (k : String)
    (hk : k ∈ ((create_metadata_df fm ts
        (extract_audio_with_translations (.ok segs) detectSvc trSvc)
        meta now u1 u2).source.subtitles).keys) :
    k = detect_language detectSvc ∨ k ∈ supported_languages.map Prod.fst := by
  have hk2 : k ∈ (extract_audio_with_translations (.ok segs) detectSvc trSvc).keys := hk
  rw [audio_result_keys] at hk2
  rcases List.mem_cons.mp hk2 with h | h
  · exact Or.inl h
  · obtain ⟨p, hp, hpk⟩ := List.mem_map.mp h
    exact Or.inr (List.mem_map.mpr ⟨p, (List.mem_filter.mp hp).1, hpk⟩)

/-- Witness for the amended C4: a successful annotation with detected
source en-US; the key ar-AR of the translated track is in the allowed
set. -/
theorem claim_C4_subtitle_keys_witness :
    ("ar-AR" ∈ ((create_metadata_df [] []
        (extract_audio_with_translations (.ok []) (.ok "en-US") fun _ _ => .ok "t")
        ⟨30, 10, 300, 30⟩ 0 "rec" "th").source.subtitles).keys) ∧
    ("ar-AR" = detect_language (.ok "en-US") ∨
      "ar-AR" ∈ supported_languages.map Prod.fst) :=
  ⟨by decide, claim_C4_subtitle_keys [] (.ok "en-US") (fun _ _ => .ok "t")
    [] [] ⟨30, 10, 300, 30⟩ 0 "rec" "th" "ar-AR" (by decide)⟩

/-- Every track built by a successful audio annotation — the source
track and every translated track — carries one entry per transcript
segment, with the segment's own `(start, end)` endpoints. -/
theorem audio_track_shape (segs : List TranscriptSegment)
    (detectSvc : Except String String)
    (trSvc : String → String → Except String String)
    (m : List (String × List SubtitleEntry))
    (hm : extract_audio_with_translations (.ok segs) detectSvc trSvc = .tracks m)
    (p : String × List SubtitleEntry) (hp : p ∈ m) :
    p.2.length = segs.length ∧
    p.2.map (fun e => (e.inpoint, e.outpoint)) =
      segs.map (fun s => (toString s.start, toString s.stop)) := by
  rw [extract_audio_with_translations] at hm
  injection hm with hm
  subst hm
  rcases List.mem_cons.mp hp with h | h
  · subst h
    refine ⟨by simp, ?_⟩
    rw [List.map_map]
    rfl
  · obtain ⟨q, _, hq⟩ := List.mem_map.mp h
    subst hq
    refine ⟨by simp, ?_⟩
    rw [List.map_map]
    rfl

/-- C5: in every successful audio annotation, every
non-source-language subtitle track has the same number of segments as
the source-language track and identical `(inpoint, outpoint)` pairs
segment for segment — for any behaviour of the translation service,
including failing calls; and a failed translation call keeps the
untranslated source text instead of dropping the segment. -/
theorem claim_C5_track_alignment (segs : List TranscriptSegment)
    (detectSvc : Except String String)
    (trSvc : String → String → Except String String)
    (m : List (String × List SubtitleEntry))
    (hm : extract_audio_with_translations (.ok segs) detectSvc trSvc = .tracks m)
    (lang : String) (track : List SubtitleEntry)
    (hmem : (lang, track) ∈ m)
    (srcTrack : List SubtitleEntry)
    (hsrc : (detect_language detectSvc, srcTrack) ∈ m)
    (hne : lang ≠ detect_language detectSvc) :
    track.length = srcTrack.length ∧
    track.map (fun e => (e.inpoint, e.outpoint)) =
      srcTrack.map (fun e => (e.inpoint, e.outpoint)) ∧
    (∀ err t, translate_text (.error err) t = t) := by
  have h1 := audio_track_shape segs detectSvc trSvc m hm (lang, track) hmem
  have h2 := audio_track_shape segs detectSvc trSvc m hm
    (detect_language detectSvc, srcTrack) hsrc
  exact ⟨h1.1.trans h2.1.symm, h1.2.trans h2.2.symm, fun _ _ => rfl⟩

/-- The concrete result of the audio annotation used to witness C5: a
one-segment transcript detected as ms-MY, with every translation call
failing, so every translated track keeps the source text. -/
def c5tracks : List (String × List SubtitleEntry) :=
  [("ms-MY", [{ inpoint := "0", outpoint := "2", text := "hello" }]),
   ("en-US", [{ inpoint := "0", outpoint := "2", text := "hello" }]),
   ("ar-AR", [{ inpoint := "0", outpoint := "2", text := "hello" }]),
   ("zh-CN", [{ inpoint := "0", outpoint := "2", text := "hello" }]),
   ("ta-IN", [{ inpoint := "0", outpoint := "2", text := "hello" }])]

/-- Witness for C5: source language ms-MY, every translation call
failing with a rate-limit error; the en-US track is aligned with the
source track. -/
theorem claim_C5_witness :
    extract_audio_with_translations (.ok [{ start := 0, stop := 2, text := "hello" }])
        (.ok "ms-MY") (fun _ _ => .error "rate limited") = .tracks c5tracks ∧
    ("en-US", [({ inpoint := "0", outpoint := "2", text := "hello" } : SubtitleEntry)]) ∈
      c5tracks ∧
    ("ms-MY", [({ inpoint := "0", outpoint := "2", text := "hello" } : SubtitleEntry)]) ∈
      c5tracks ∧
    "en-US" ≠ detect_language (.ok "ms-MY") ∧
    ([({ inpoint := "0", outpoint := "2", text := "hello" } : SubtitleEntry)]).length =
        ([({ inpoint := "0", outpoint := "2", text := "hello" } : SubtitleEntry)]).length ∧
      ([({ inpoint := "0", outpoint := "2", text := "hello" } : SubtitleEntry)]).map
          (fun e => (e.inpoint, e.outpoint)) =
        ([({ inpoint := "0", outpoint := "2", text := "hello" } : SubtitleEntry)]).map
          (fun e => (e.inpoint, e.outpoint)) ∧
      (∀ err t, translate_text (.error err) t = t) :=
  have hm : extract_audio_with_translations
      (.ok [{ start := 0, stop := 2, text := "hello" }])
      (.ok "ms-MY") (fun _ _ => .error "rate limited") = .tracks c5tracks := rfl
  ⟨hm, by decide, by decide, by decide,
    claim_C5_track_alignment _ _ _ c5tracks hm "en-US" _ (by decide) _ (by decide)
      (by decide)⟩

/-- Python `int(.)` of an integer-valued float is the integer itself. -/
theorem pyint_intCast (z : ℤ) : pyint (z : ℚ) = z := by
  rw [pyint]
  split
  · exact Int.floor_intCast z
  · exact Int.ceil_intCast z

/-- Python `int(.)` agrees with the floor on nonnegative values. -/
theorem pyint_eq_floor (q : ℚ) (hq : 0 ≤ q) : pyint q = ⌊q⌋ := by
  rw [pyint, if_pos hq]

/-- Floor of a division by a positive natural divides the floor. -/
theorem floor_div_natCast (x : ℚ) (n : ℕ) (hn : 0 < n) :
    ⌊x / (n : ℚ)⌋ = ⌊x⌋ / (n : ℤ) := by
  have hn' : (0 : ℚ) < (n : ℚ) := by exact_mod_cast hn
  rw [Int.floor_eq_iff]
  constructor
  · rw [le_div_iff₀ hn']
    have h1 : (⌊x⌋ / (n : ℤ)) * (n : ℤ) ≤ ⌊x⌋ :=
      Int.ediv_mul_le ⌊x⌋ (by exact_mod_cast hn.ne')
    have h2 : ((⌊x⌋ / (n : ℤ) * (n : ℤ) : ℤ) : ℚ) ≤ (⌊x⌋ : ℚ) := by exact_mod_cast h1
    push_cast at h2 ⊢
    linarith [Int.floor_le x]
  · rw [div_lt_iff₀ hn']
    have h1 : ⌊x⌋ + 1 ≤ (⌊x⌋ / (n : ℤ) + 1) * (n : ℤ) :=
      Int.add_one_le_iff.mpr (Int.lt_ediv_add_one_mul_self ⌊x⌋ (by exact_mod_cast hn))
    have h2 : ((⌊x⌋ + 1 : ℤ) : ℚ) ≤ (((⌊x⌋ / (n : ℤ) + 1) * (n : ℤ) : ℤ) : ℚ) := by
      exact_mod_cast h1
    push_cast at h2 ⊢
    linarith [Int.lt_floor_add_one x]

/-- Floor of a division by 60, on the integer side. -/
theorem floor_div_sixty (x : ℚ) : ⌊x / 60⌋ = ⌊x⌋ / 60 := by
  have h := floor_div_natCast x 60 (by norm_num)
  norm_num at h
  exact h

/-- Floor of a division by 3600, on the integer side. -/
theorem floor_div_hour (x : ℚ) : ⌊x / 3600⌋ = ⌊x⌋ / 3600 := by
  have h := floor_div_natCast x 3600 (by norm_num)
  norm_num at h
  exact h

/-- Python `a % b` for a positive divisor is nonnegative. -/
theorem pymod_nonneg (a b : ℚ) (hb : 0 < b) : 0 ≤ pymod a b := by
  rw [pymod]
  have h := Int.floor_le (a / b)
  have hmul : b * (⌊a / b⌋ : ℚ) ≤ b * (a / b) := mul_le_mul_of_nonneg_left h hb.le
  rw [mul_div_cancel₀ a hb.ne'] at hmul
  linarith

/-- The floor of Python `a % 3600`. -/
theorem floor_pymod_hour (x : ℚ) :
    ⌊pymod x 3600⌋ = ⌊x⌋ - 3600 * (⌊x⌋ / 3600) := by
  rw [pymod,
    show (3600 : ℚ) * (⌊x / 3600⌋ : ℚ) = ((3600 * ⌊x / 3600⌋ : ℤ) : ℚ) by push_cast; ring,
    Int.floor_sub_int, floor_div_hour]

/-- The floor of Python `a % 60`. -/
theorem floor_pymod_sixty (x : ℚ) :
    ⌊pymod x 60⌋ = ⌊x⌋ - 60 * (⌊x⌋ / 60) := by
  rw [pymod,
    show (60 : ℚ) * (⌊x / 60⌋ : ℚ) = ((60 * ⌊x / 60⌋ : ℤ) : ℚ) by push_cast; ring,
    Int.floor_sub_int, floor_div_sixty]

/-- The duration format the spec describes: `HH:MM:SS:FF` with
`HH = floor(s / 3600)`, `MM = floor(s / 60) mod 60`,
`SS = floor(s) mod 60` and `FF = floor((s mod 1) * 24)` — a fixed
24-frames-per-second sub-second quantization, independent of the
video's frame rate. -/
def formatDurationSpec (s : ℚ) : String :=
  pad2 ⌊s / 3600⌋ ++ ":" ++ pad2 (⌊s / 60⌋ % 60) ++ ":" ++ pad2 (⌊s⌋ % 60) ++ ":" ++
    pad2 ⌊(s - ⌊s⌋) * 24⌋

/-- C6: for every nonnegative duration, `format_duration` produces
exactly the `HH:MM:SS:FF` string with the fixed 24-fps sub-second
quantization `FF = floor((seconds mod 1) * 24)`; in particular
`format_duration 125.5 = "00:02:05:12"`. -/
theorem claim_C6_duration_format (s : ℚ) (hs : 0 ≤ s) :
    format_duration s = formatDurationSpec s ∧
    format_duration (251 / 2) = "00:02:05:12" := by
  have main : ∀ x : ℚ, 0 ≤ x → format_duration x = formatDurationSpec x := by
    intro x hx
    rw [format_duration, formatDurationSpec]
    have hHH : pyint ((⌊x / 3600⌋ : ℤ) : ℚ) = ⌊x / 3600⌋ := pyint_intCast _
    have hMM : pyint ((⌊pymod x 3600 / 60⌋ : ℤ) : ℚ) = ⌊x / 60⌋ % 60 := by
      rw [pyint_intCast, floor_div_sixty, floor_pymod_hour, floor_div_sixty]
      omega
    have hSS : pyint (pymod x 60) = ⌊x⌋ % 60 := by
      rw [pyint_eq_floor _ (pymod_nonneg x 60 (by norm_num)), floor_pymod_sixty]
      omega
    have hFF : pyint (pymod x 1 * 24) = ⌊(x - ⌊x⌋) * 24⌋ := by
      have hp1 : pymod x 1 = x - ⌊x⌋ := by
        rw [pymod, div_one, one_mul]
      rw [hp1, pyint_eq_floor]
      have hfr : (0 : ℚ) ≤ x - ⌊x⌋ := by
        have := Int.floor_le x
        linarith
      positivity
    rw [hHH, hMM, hSS, hFF]
  refine ⟨main s hs, ?_⟩
  rw [main (251 / 2) (by norm_num), formatDurationSpec]
  have e1 : ⌊(251 / 2 : ℚ) / 3600⌋ = 0 := by
    rw [Int.floor_eq_iff] <;> norm_num
  have e2 : ⌊(251 / 2 : ℚ) / 60⌋ = 2 := by
    rw [Int.floor_eq_iff] <;> norm_num
  have e3 : ⌊(251 / 2 : ℚ)⌋ = 125 := by
    rw [Int.floor_eq_iff] <;> norm_num
  rw [e1, e2, e3]
  rw [show ((251 : ℚ) / 2 - ((125 : ℤ) : ℚ)) * 24 = 12 by norm_num,
    show ⌊(12 : ℚ)⌋ = 12 by rw [Int.floor_eq_iff] <;> norm_num]
  decide

/-- Witness for C6 at 125.5 seconds. -/
theorem claim_C6_witness :
    (0 : ℚ) ≤ 251 / 2 ∧
    (format_duration (251 / 2) = formatDurationSpec (251 / 2) ∧
      format_duration (251 / 2) = "00:02:05:12") :=
  ⟨by norm_num, claim_C6_duration_format (251 / 2) (by norm_num)⟩

/-- Re-parsing an encoded subtitle entry restores it. -/
theorem subtitleEntry_rt (e : SubtitleEntry) :
    SubtitleEntry.fromJson e.toJson = some e := rfl

/-- Re-parsing an encoded timeline event restores it. -/
theorem eventRecord_rt (e : EventRecord) :
    EventRecord.fromJson e.toJson = some e := rfl

/-- Decoding an array whose elements were produced by an encoder that
the decoder inverts restores the original list. -/
theorem optionMapList_map {alpha beta : Type} (f : alpha → beta) (g : beta → Option alpha)
    (h : ∀ a, g (f a) = some a) : ∀ l : List alpha, optionMapList g (l.map f) = some l
  | [] => rfl
  | x :: xs => by
      rw [List.map_cons, optionMapList, h x, optionMapList_map f g h xs]

/-- Re-parsing an encoded language track restores it. -/
theorem trackFromJson_rt (p : String × List SubtitleEntry) :
    trackFromJson (p.1, Json.arr (p.2.map SubtitleEntry.toJson)) = some p := by
  obtain ⟨k, tr⟩ := p
  show (optionMapList SubtitleEntry.fromJson (tr.map SubtitleEntry.toJson)).map
      (fun track => (k, track)) = some (k, tr)
  rw [optionMapList_map SubtitleEntry.toJson SubtitleEntry.fromJson subtitleEntry_rt tr]
  rfl

/-- Re-parsing the encoded subtitles dictionary restores it, both for
language tracks and for the failure marker. -/
theorem audioResult_rt (a : AudioResult) :
    AudioResult.fromJson a.toJson = some a := by
  cases a with
  | errorMarker e => rfl
  | tracks m =>
      match m with
      | [] => rfl
      | [p] =>
          show (optionMapList trackFromJson ([p].map fun q =>
              (q.1, Json.arr (q.2.map SubtitleEntry.toJson)))).map AudioResult.tracks =
            some (.tracks [p])
          rw [optionMapList_map _ trackFromJson trackFromJson_rt]
          rfl
      | p :: q :: rest =>
          show (optionMapList trackFromJson ((p :: q :: rest).map fun r =>
              (r.1, Json.arr (r.2.map SubtitleEntry.toJson)))).map AudioResult.tracks =
            some (.tracks (p :: q :: rest))
          rw [optionMapList_map _ trackFromJson trackFromJson_rt]
          rfl

/-- Re-parsing the encoded `source` dictionary restores it field for
field. -/
theorem sourceData_rt (s : SourceData) :
    SourceData.fromJson s.toJson = some s := by
  obtain ⟨de, ti, fi, lk, th, cn, ct, du, pu, rp, ⟨evs⟩, subs⟩ := s
  cases ti with
  | none =>
      show (Option.bind (some none) fun title =>
        (optionMapList EventRecord.fromJson (evs.map EventRecord.toJson)).bind
          fun eventData =>
        (AudioResult.fromJson subs.toJson).bind fun subtitles =>
        some (⟨de, title, fi, lk, th, cn, ct, du, pu, rp, ⟨eventData⟩, subtitles⟩ :
          SourceData)) =
      some (⟨de, none, fi, lk, th, cn, ct, du, pu, rp, ⟨evs⟩, subs⟩ : SourceData)
      rw [Option.some_bind,
        optionMapList_map EventRecord.toJson EventRecord.fromJson eventRecord_rt evs,
        Option.some_bind, audioResult_rt subs, Option.some_bind]
  | some t =>
      show (Option.bind (some (some t)) fun title =>
        (optionMapList EventRecord.fromJson (evs.map EventRecord.toJson)).bind
          fun eventData =>
        (AudioResult.fromJson subs.toJson).bind fun subtitles =>
        some (⟨de, title, fi, lk, th, cn, ct, du, pu, rp, ⟨eventData⟩, subtitles⟩ :
          SourceData)) =
      some (⟨de, some t, fi, lk, th, cn, ct, du, pu, rp, ⟨evs⟩, subs⟩ : SourceData)
      rw [Option.some_bind,
        optionMapList_map EventRecord.toJson EventRecord.fromJson eventRecord_rt evs,
        Option.some_bind, audioResult_rt subs, Option.some_bind]

/-- C9: exporting a finalized record to structured JSON and re-parsing
the exported document yields a structure equal field-for-field to the
in-memory record — the projection is lossless. -/
theorem claim_C9_export_roundtrip (d : StructuredData) :
    StructuredData.fromJson (StructuredData.toJson d) = some d := by
  obtain ⟨ix, i, v, sq, pt, f, src⟩ := d
  show (SourceData.fromJson src.toJson).map
      (fun s => (⟨ix, i, v, sq, pt, f, s⟩ : StructuredData)) =
    some (⟨ix, i, v, sq, pt, f, src⟩ : StructuredData)
  rw [sourceData_rt src]
  rfl
